import Mathlib

/-!
Verification of the locomotion and aiming subsystem of the 3DV viewer.

The definitions below are a shallow embedding of the TypeScript sources:
the main variant is src/viewer.ts (namespace ThreeDV), and an older
variant of the same file (namespace ThreeDV.P0) that still routes
movement through a pathfinder.  Positions, angles, pixel coordinates and
times are modelled as real numbers; the one place where IEEE special
values matter (the scale clamp) uses an explicit JS-number domain.
State that the claims never touch (renderer, materials, FOV tweening,
lights) is not part of the state record; the handlers below mutate
exactly the fields their source lines mutate.
-/

noncomputable section
open Classical

namespace ThreeDV

/-- Three-component vector, as THREE.Vector3 restricted to its data. -/
structure Vec3 where
  x : ℝ
  y : ℝ
  z : ℝ

/-- JS number domain for the scale input: IEEE special values made explicit,
finite doubles idealised as reals. -/
inductive JSNum where
  | nan
  | posInf
  | negInf
  | finite (v : ℝ)

/-- JS Math.max on two arguments: NaN-propagating, infinity-aware. -/
def jsMax (a b : JSNum) : JSNum :=
  match a, b with
  | .nan, _ => .nan
  | _, .nan => .nan
  | .posInf, _ => .posInf
  | _, .posInf => .posInf
  | .negInf, b => b
  | a, .negInf => a
  | .finite x, .finite y => .finite (max x y)

/-- The number is finite and at least the bound c. -/
def JSNum.finiteGE (n : JSNum) (c : ℝ) : Prop :=
  ∃ v : ℝ, n = JSNum.finite v ∧ c ≤ v

/-- THREE.MathUtils.clamp(value, lo, hi) = Math.max(lo, Math.min(hi, value)). -/
def clampU (v lo hi : ℝ) : ℝ := max lo (min hi v)

-- constants of src/viewer.ts lines 9-15
def DEFAULT_EYE_HEIGHT : ℝ := 1
def LOOK_SENS_MOUSE : ℝ := 0.0022
def LOOK_SENS_TOUCH : ℝ := 0.005
/-- THREE.MathUtils.degToRad(85). -/
def LOOK_PITCH_LIMIT : ℝ := 85 * (Real.pi / 180)
def MOVE_SPEED : ℝ := 2.0
def CLICK_PX : ℝ := 6
def CLICK_MS : ℝ := 300

/-- The viewer state touched by the locomotion and aiming subsystem of
src/viewer.ts.  rigPos is rig.position; yawRotY is yaw.rotation.y; pitchRotX
is pitch.rotation.x; pitchPosY is pitch.position.y (the eye height);
moveTarget is the pending glide goal; navmesh is some minY? when
navmeshGroup exists (with the optional cached navmeshMinY); navFloorY is
the fallback floor plane height (some when navFloor exists); teleportLog is
a ghost trace of moveTo calls, newest first, recording (target, smooth). -/
structure ViewerState where
  rigPos : Vec3
  yawRotY : ℝ
  pitchRotX : ℝ
  pitchPosY : ℝ
  moveTarget : Option Vec3
  xrPresenting : Bool
  markerVisible : Bool
  aimPoint : Vec3
  navmesh : Option (Option ℝ)
  navFloorY : Option ℝ
  worldScale : JSNum
  navScale : JSNum
  isDragging : Bool
  dragging : Bool
  lastX : ℝ
  lastY : ℝ
  lastTouchX : ℝ
  lastTouchY : ℝ
  downX : ℝ
  downY : ℝ
  downTime : ℝ
  pinchActive : Bool
  pinchSnapChosen : Bool
  teleportLog : List (Vec3 × Bool)

/-- The destination height of moveTo, src/viewer.ts line 576:
navmeshGroup ? (navmeshMinY ?? target.y) : (navFloor ? floorPosY : 0). -/
def destY (st : ViewerState) (target : Vec3) : ℝ :=
  match st.navmesh with
  | some minY? => minY?.getD target.y
  | none => st.navFloorY.getD 0

/-- moveTo, src/viewer.ts lines 573-585.  The ghost teleportLog records the
request; everything else is the source verbatim. -/
def moveTo (st : ViewerState) (target : Vec3) (smooth : Bool) : ViewerState :=
  let dest : Vec3 := ⟨target.x, destY st target, target.z⟩
  let st1 := { st with teleportLog := (target, smooth) :: st.teleportLog }
  if !smooth || st1.xrPresenting then
    { st1 with rigPos := ⟨dest.x, 0, dest.z⟩, moveTarget := none }
  else
    { st1 with moveTarget := some dest }

/-- The smooth-move block of the animation loop, src/viewer.ts lines
646-688, with dt = Math.min(0.05, clock.getDelta()) taking the raw frame
delta as input.  The other phases of the loop never write rigPos or
moveTarget. -/
def tickMove (delta : ℝ) (st : ViewerState) : ViewerState :=
  let dt := min (0.05 : ℝ) delta
  match st.moveTarget with
  | none => st
  | some t =>
    let vx := t.x - st.rigPos.x
    let vz := t.z - st.rigPos.z
    let dist := Real.sqrt (vx ^ 2 + vz ^ 2)
    let step := MOVE_SPEED * dt
    let tol := max (0.05 : ℝ) step
    if dist ≤ tol then
      { st with rigPos := ⟨t.x, 0, t.z⟩, moveTarget := none }
    else
      { st with rigPos :=
          ⟨st.rigPos.x + vx / dist * step,
           st.rigPos.y,
           st.rigPos.z + vz / dist * step⟩ }

/-- mousedown handler, src/viewer.ts lines 382-389. -/
def onMouseDown (st : ViewerState) (ex ey now : ℝ) : ViewerState :=
  if st.xrPresenting then st
  else
    { st with isDragging := true, lastX := ex, lastY := ey,
              downX := ex, downY := ey, downTime := now, dragging := false }

/-- mousemove drag-to-look handler, src/viewer.ts lines 391-401. -/
def onMouseMove (st : ViewerState) (ex ey : ℝ) : ViewerState :=
  if st.xrPresenting then st
  else if !st.isDragging then st
  else
    let dx := ex - st.lastX
    let dy := ey - st.lastY
    { st with lastX := ex, lastY := ey,
              yawRotY := st.yawRotY - dx * LOOK_SENS_MOUSE,
              pitchRotX := clampU (st.pitchRotX - dy * LOOK_SENS_MOUSE)
                (-LOOK_PITCH_LIMIT) LOOK_PITCH_LIMIT,
              dragging := true }

/-- mouseup handler, src/viewer.ts lines 403-415. -/
def onMouseUp (st : ViewerState) (ex ey now : ℝ) : ViewerState :=
  if st.xrPresenting then st
  else
    let dx := ex - st.downX
    let dy := ey - st.downY
    let dtUp := now - st.downTime
    let st1 :=
      if ¬(dx * dx + dy * dy > CLICK_PX * CLICK_PX) ∧ dtUp ≤ CLICK_MS ∧
          st.markerVisible then
        moveTo st st.aimPoint true
      else st
    { st1 with isDragging := false, dragging := false }

/-- touchstart handler for a single touch, src/viewer.ts lines 442-458. -/
def onTouchStart1 (st : ViewerState) (tx ty now : ℝ) : ViewerState :=
  if st.xrPresenting then st
  else
    { st with lastTouchX := tx, lastTouchY := ty,
              downX := tx, downY := ty, downTime := now, dragging := false,
              pinchActive := false, pinchSnapChosen := false }

/-- touchmove handler for a single touch, src/viewer.ts lines 460-483 (the
two-finger pinch branch requires at least two touches and is skipped). -/
def onTouchMove1 (st : ViewerState) (tx ty : ℝ) : ViewerState :=
  if st.xrPresenting then st
  else
    let dx := tx - st.lastTouchX
    let dy := ty - st.lastTouchY
    { st with lastTouchX := tx, lastTouchY := ty,
              yawRotY := st.yawRotY - dx * LOOK_SENS_TOUCH,
              pitchRotX := clampU (st.pitchRotX - dy * LOOK_SENS_TOUCH)
                (-LOOK_PITCH_LIMIT) LOOK_PITCH_LIMIT,
              dragging := true }

/-- touchend handler with all touches released, src/viewer.ts lines 485-502.
The pinch-release branch only reverts FOV state, which is not modelled
beyond the two flags. -/
def onTouchEnd (st : ViewerState) (now : ℝ) : ViewerState :=
  let body := fun (st : ViewerState) =>
    let st1 :=
      if st.pinchActive then
        { st with pinchActive := false, pinchSnapChosen := false }
      else st
    let dtUp := now - st1.downTime
    let st2 :=
      if (¬st1.dragging) ∧ dtUp ≤ CLICK_MS ∧ st1.markerVisible then
        moveTo st1 st1.aimPoint true
      else st1
    { st2 with dragging := false }
  if st.xrPresenting then st else body st

/-- XR controller select handler, src/viewer.ts line 513. -/
def onSelect (st : ViewerState) : ViewerState :=
  if st.markerVisible then moveTo st st.aimPoint false else st

/-- resetView, src/viewer.ts line 753: rig back to (0, 0, 2.5), yaw and
pitch rotations zeroed.  Nothing else is written there. -/
def resetView (st : ViewerState) : ViewerState :=
  { st with rigPos := ⟨0, 0, 2.5⟩, yawRotY := 0, pitchRotX := 0 }

/-- setModelScale, src/viewer.ts lines 726-735.  The floor replacement that
stickNavFloorToMinY computes from the scene bounding box is supplied as the
oracle argument newFloor. -/
def setModelScale (st : ViewerState) (s : JSNum) (newFloor : ℝ) : ViewerState :=
  let k := jsMax (JSNum.finite 0.001) s
  { st with worldScale := k,
            navScale := if st.navmesh.isSome then k else st.navScale,
            navFloorY := st.navFloorY.map (fun _ => newFloor) }

/-- setEyeHeight, src/viewer.ts lines 737-741. -/
def setEyeHeight (st : ViewerState) (h : ℝ) : ViewerState :=
  { st with pitchPosY := clampU h 0.5 2.5 }

/-- The state right after initViewer, src/viewer.ts lines 109-326:
rig at (0, 0, 2.5), zero rotations, eye height from the config, no pending
goal, marker hidden; the loaded navmesh data and the computed fallback
floor height are parameters. -/
def initState (eyeH : Option ℝ) (scale : Option JSNum)
    (nav : Option (Option ℝ)) (floor0 : ℝ) : ViewerState :=
  { rigPos := ⟨0, 0, 2.5⟩
    yawRotY := 0
    pitchRotX := 0
    pitchPosY := eyeH.getD DEFAULT_EYE_HEIGHT
    moveTarget := none
    xrPresenting := false
    markerVisible := false
    aimPoint := ⟨0, 0, 0⟩
    navmesh := nav
    navFloorY := some floor0
    worldScale := scale.getD (JSNum.finite 1)
    navScale := scale.getD (JSNum.finite 1)
    isDragging := false
    dragging := false
    lastX := 0
    lastY := 0
    lastTouchX := 0
    lastTouchY := 0
    downX := 0
    downY := 0
    downTime := 0
    pinchActive := false
    pinchSnapChosen := false
    teleportLog := [] }

namespace P0

/-- State of the older viewer variant (src/unnamed/part_000): movement
follows a list of path waypoints instead of a single moveTarget. -/
structure P0State where
  rigPos : Vec3
  path : List Vec3
  pathIdx : Nat
  navReady : Bool
  xrPresenting : Bool

/-- The external three-pathfinding library, abstracted: query returns the
waypoint list found for (start, dest), or none when any call of the try
block throws; clampStep is the clamped destination it computes. -/
structure NavOracle where
  query : Vec3 → Vec3 → Option (List Vec3)
  clampStep : Vec3 → Vec3 → Vec3

/-- planPath, src/unnamed/part_000 lines 248-272. -/
def planPath (o : NavOracle) (st : P0State) (dest : Vec3) : P0State :=
  if st.navReady then
    match o.query st.rigPos dest with
    | none => { st with path := [dest], pathIdx := 0 }
    | some navPath =>
      match navPath with
      | [] => { st with path := [o.clampStep st.rigPos dest], pathIdx := 0 }
      | _ => { st with path := navPath, pathIdx := 0 }
  else { st with path := [dest], pathIdx := 0 }

/-- moveUserInstant, src/unnamed/part_000 lines 274-276. -/
def moveUserInstant (st : P0State) (toV : Vec3) : P0State :=
  { st with rigPos := ⟨toV.x, 0, toV.z⟩ }

/-- startMove, src/unnamed/part_000 lines 278-285: instant only when
presenting in XR with smooth = false, otherwise the pathfinder plans. -/
def startMove (o : NavOracle) (st : P0State) (toV : Vec3) (smooth : Bool) :
    P0State :=
  if st.xrPresenting && !smooth then moveUserInstant st toV
  else planPath o st toV

end P0

-- sample states used by witnesses and counterexamples

/-- A freshly initialised viewer state with no navmesh. -/
def baseState : ViewerState := initState none none none 0

/-- Base state with a pending glide goal, used for the resetView claim. -/
def stC8 : ViewerState := { baseState with moveTarget := some ⟨0, 0, 12.5⟩ }

/-- Base state presenting in XR. -/
def stXR : ViewerState := { baseState with xrPresenting := true }

/-- Base state with an active mouse drag. -/
def stDrag : ViewerState := { baseState with isDragging := true }

/-- Base state with a valid aim (marker visible at a concrete aim point). -/
def stAim : ViewerState :=
  { baseState with markerVisible := true, aimPoint := ⟨1, 0, 1⟩ }

/-- Base state with the rig at the origin and a pending goal 5 units away. -/
def stM : ViewerState :=
  { baseState with rigPos := ⟨0, 0, 0⟩, moveTarget := some ⟨3, 0, 4⟩ }

/-- Base state with the rig at the origin and a goal within tolerance. -/
def stN : ViewerState :=
  { baseState with rigPos := ⟨0, 0, 0⟩, moveTarget := some ⟨0.03, 0, 0.04⟩ }

/-- Base state with a navmesh present. -/
def stNav : ViewerState := { baseState with navmesh := some (some 0) }

/-- Oracle for the older variant whose pathfinder always fails. -/
def o0 : P0.NavOracle := ⟨fun _ _ => none, fun _ d => d⟩

/-- Older-variant state: presenting in XR, pathfinder zone not ready. -/
def stP0 : P0.P0State :=
  { rigPos := ⟨0, 0, 0⟩, path := [], pathIdx := 0,
    navReady := false, xrPresenting := true }

-- helper lemmas

theorem pitchLimit_pos : 0 < LOOK_PITCH_LIMIT := by
  unfold LOOK_PITCH_LIMIT
  positivity

theorem clampU_abs_le (v : ℝ) :
    |clampU v (-LOOK_PITCH_LIMIT) LOOK_PITCH_LIMIT| ≤ LOOK_PITCH_LIMIT := by
  have h0 : (0 : ℝ) ≤ LOOK_PITCH_LIMIT := le_of_lt pitchLimit_pos
  rw [abs_le]
  exact ⟨le_max_left _ _, max_le (neg_le_self h0) (min_le_left _ _)⟩

theorem clampU_pin_hi (v : ℝ) (h : LOOK_PITCH_LIMIT ≤ v) :
    clampU v (-LOOK_PITCH_LIMIT) LOOK_PITCH_LIMIT = LOOK_PITCH_LIMIT := by
  have h0 : (0 : ℝ) ≤ LOOK_PITCH_LIMIT := le_of_lt pitchLimit_pos
  unfold clampU
  rw [min_eq_left h, max_eq_right (neg_le_self h0)]

theorem moveTo_log (st : ViewerState) (p : Vec3) (sm : Bool) :
    (moveTo st p sm).teleportLog = (p, sm) :: st.teleportLog := by
  unfold moveTo
  dsimp only
  split <;> rfl

theorem onTouchMove1_xr (st : ViewerState) (tx ty : ℝ)
    (hxr : st.xrPresenting = false) :
    (onTouchMove1 st tx ty).xrPresenting = false := by
  simp [onTouchMove1, hxr]

theorem touch_yaw_invariant (st : ViewerState) (hxr : st.xrPresenting = false)
    (ps : List (ℝ × ℝ)) :
    (ps.foldl (fun s q => onTouchMove1 s q.1 q.2) st).yawRotY +
      LOOK_SENS_TOUCH *
        (ps.foldl (fun s q => onTouchMove1 s q.1 q.2) st).lastTouchX =
    st.yawRotY + LOOK_SENS_TOUCH * st.lastTouchX := by
  induction ps generalizing st with
  | nil => rfl
  | cons q ps ih =>
    rw [List.foldl_cons, ih _ (onTouchMove1_xr st q.1 q.2 hxr)]
    simp only [onTouchMove1, hxr, Bool.false_eq_true, if_false]
    ring

theorem onTouchEnd_drag_log (st : ViewerState) (now : ℝ)
    (hxr : st.xrPresenting = false) (hdr : st.dragging = true) :
    (onTouchEnd st now).teleportLog = st.teleportLog := by
  unfold onTouchEnd
  dsimp only
  rw [if_neg (by simp [hxr])]
  split
  · rw [if_neg (by rintro ⟨hnd, -, -⟩; exact hnd (by simp [hdr]))]
  · rw [if_neg (by rintro ⟨hnd, -, -⟩; exact hnd (by simp [hdr]))]

-- claim theorems

/-- Claim C7: outside an immersive XR session the rig position Y component
is 0 after every state-changing operation: after initialisation, after every
moveTo call (instant snap or glide start), after every animation-frame
locomotion step or snap, and after resetView; glide movement alters only the
X and Z components. -/
theorem C7_rigY_zero :
    (∀ eyeH scale nav floor0, (initState eyeH scale nav floor0).rigPos.y = 0) ∧
    (∀ st p sm, st.xrPresenting = false → st.rigPos.y = 0 →
      (moveTo st p sm).rigPos.y = 0) ∧
    (∀ st d, st.xrPresenting = false → st.rigPos.y = 0 →
      (tickMove d st).rigPos.y = 0) ∧
    (∀ st, (resetView st).rigPos.y = 0) := by
  refine ⟨fun _ _ _ _ => rfl, ?_, ?_, fun _ => rfl⟩
  · intro st p sm _ hy
    unfold moveTo
    dsimp only
    split
    · rfl
    · exact hy
  · intro st d _ hy
    unfold tickMove
    dsimp only
    rcases st.moveTarget with _ | t
    · exact hy
    · dsimp only
      split
      · rfl
      · exact hy

/-- Claim C8 counterexample: resetView does not clear a pending locomotion
goal; from a state with goal (0, 0, 12.5) the goal is still pending after
resetView, and the following tick (delta 0.1 s) still glides the rig,
moving Z from 2.5 to 2.6. -/
theorem C8_counterexample :
    (resetView stC8).moveTarget ≠ none ∧
    (tickMove 0.1 (resetView stC8)).rigPos.z ≠ (resetView stC8).rigPos.z := by
  constructor
  · simp [resetView, stC8, baseState, initState]
  · have h100 : Real.sqrt 100 = 10 := by
      rw [show (100 : ℝ) = 10 ^ 2 by norm_num]
      exact Real.sqrt_sq (by norm_num)
    have harg : ((0 : ℝ) - 0) ^ 2 + ((12.5 : ℝ) - 2.5) ^ 2 = 100 := by norm_num
    simp only [tickMove, resetView, stC8, baseState, initState]
    norm_num [harg, h100, MOVE_SPEED, min_def, max_def]

/-- Claim C8 amended: resetView puts the rig back at (0, 0, 2.5) and zeroes
the yaw and pitch rotations, but it leaves any pending locomotion goal in
place, so gliding toward that goal resumes on subsequent frame ticks. -/
theorem C8_resetView (st : ViewerState) :
    (resetView st).rigPos = ⟨0, 0, 2.5⟩ ∧
    (resetView st).yawRotY = 0 ∧
    (resetView st).pitchRotX = 0 ∧
    (resetView st).moveTarget = st.moveTarget :=
  ⟨rfl, rfl, rfl, rfl⟩

/-- Claim C7 witness: at the freshly initialised state the rig Y is 0, and
it stays 0 after a smooth moveTo and after a tick. -/
theorem C7_witness :
    baseState.xrPresenting = false ∧ baseState.rigPos.y = 0 ∧
    (moveTo baseState ⟨4, 5, 6⟩ true).rigPos.y = 0 ∧
    (tickMove 0.016 baseState).rigPos.y = 0 :=
  ⟨rfl, rfl, C7_rigY_zero.2.1 baseState ⟨4, 5, 6⟩ true rfl rfl,
    C7_rigY_zero.2.2.1 baseState 0.016 rfl rfl⟩

/-- Claim C8 amended witness: at the concrete state with a pending goal,
resetView restores the rig pose and keeps the goal. -/
theorem C8_witness :
    (resetView stC8).rigPos = ⟨0, 0, 2.5⟩ ∧
    (resetView stC8).moveTarget = stC8.moveTarget :=
  ⟨(C8_resetView stC8).1, (C8_resetView stC8).2.2.2⟩

/-- Claim C9 counterexample: setModelScale applied to NaN leaves the world
scale NaN, which is not a finite number at least 0.001; the clamp
Math.max(0.001, s) does not protect against NaN. -/
theorem C9_counterexample :
    ¬ JSNum.finiteGE ((setModelScale baseState JSNum.nan 0).worldScale) 0.001 := by
  rintro ⟨v, hv, -⟩
  have : (setModelScale baseState JSNum.nan 0).worldScale = JSNum.nan := rfl
  rw [this] at hv
  exact JSNum.noConfusion hv

/-- Claim C9 amended: for every argument at most 0 (including negative
infinity) the effective scale on the world group, and on the navmesh group
when one is present, is the finite minimum 0.001, and any finite argument
yields a finite effective scale at least 0.001; but NaN propagates through
the clamp and positive infinity is left unclamped, so non-finite input is
not always forced to a finite scale. -/
theorem C9_scale_clamp (st : ViewerState) (v f : ℝ)
    (hv : v ≤ 0) (hnav : st.navmesh.isSome = true) :
    (setModelScale st (JSNum.finite v) f).worldScale = JSNum.finite 0.001 ∧
    (setModelScale st (JSNum.finite v) f).navScale = JSNum.finite 0.001 ∧
    (setModelScale st JSNum.negInf f).worldScale = JSNum.finite 0.001 ∧
    (∀ w : ℝ,
      JSNum.finiteGE ((setModelScale st (JSNum.finite w) f).worldScale) 0.001) ∧
    (setModelScale st JSNum.nan f).worldScale = JSNum.nan ∧
    (setModelScale st JSNum.posInf f).worldScale = JSNum.posInf := by
  have hmax : max (0.001 : ℝ) v = 0.001 :=
    max_eq_left (le_trans hv (by norm_num))
  refine ⟨?_, ?_, rfl, ?_, rfl, rfl⟩
  · simp [setModelScale, jsMax, hmax]
  · simp [setModelScale, jsMax, hmax, hnav]
  · intro w
    exact ⟨max 0.001 w, rfl, le_max_left _ _⟩

/-- Claim C9 witness: at the concrete input scale -1 with a navmesh present,
both hypotheses hold and the effective world scale is the finite 0.001. -/
theorem C9_witness :
    (-1 : ℝ) ≤ 0 ∧ stNav.navmesh.isSome = true ∧
    (setModelScale stNav (JSNum.finite (-1)) 0).worldScale = JSNum.finite 0.001 :=
  ⟨by norm_num, rfl,
    (C9_scale_clamp stNav (-1) 0 (by norm_num) rfl).1⟩

/-- Claim C10: setModelScale and setEyeHeight leave the rig position and the
yaw and pitch rotation angles unchanged; setModelScale writes only the world
scale, the navmesh scale and the fallback floor placement, and setEyeHeight
writes only the pitch node Y offset (the clamped eye height). -/
theorem C10_frame_effect (st : ViewerState) (s : JSNum) (f h : ℝ) :
    setModelScale st s f =
      { st with worldScale := jsMax (JSNum.finite 0.001) s,
                navScale :=
                  if st.navmesh.isSome then jsMax (JSNum.finite 0.001) s
                  else st.navScale,
                navFloorY := st.navFloorY.map (fun _ => f) } ∧
    setEyeHeight st h = { st with pitchPosY := clampU h 0.5 2.5 } ∧
    (setModelScale st s f).rigPos = st.rigPos ∧
    (setModelScale st s f).yawRotY = st.yawRotY ∧
    (setModelScale st s f).pitchRotX = st.pitchRotX ∧
    (setEyeHeight st h).rigPos = st.rigPos ∧
    (setEyeHeight st h).yawRotY = st.yawRotY ∧
    (setEyeHeight st h).pitchRotX = st.pitchRotX :=
  ⟨rfl, rfl, rfl, rfl, rfl, rfl, rfl, rfl⟩

/-- Claim C10 witness: at the freshly initialised state, setModelScale with
factor 2 and setEyeHeight 1.8 both keep the rig position. -/
theorem C10_witness :
    (setModelScale baseState (JSNum.finite 2) 0).rigPos = baseState.rigPos ∧
    (setEyeHeight baseState 1.8).rigPos = baseState.rigPos :=
  ⟨(C10_frame_effect baseState (JSNum.finite 2) 0 1.8).2.2.1,
    (C10_frame_effect baseState (JSNum.finite 2) 0 1.8).2.2.2.2.2.1⟩

/-- Claim C4: a mouse release, touch release or XR controller select that
happens while the reticle marker is not visible leaves the rig position
unchanged and creates no locomotion goal (pending goal and teleport log are
untouched). -/
theorem C4_invalid_aim_noop (st : ViewerState) (ex ey now : ℝ)
    (h : st.markerVisible = false) :
    (onMouseUp st ex ey now).rigPos = st.rigPos ∧
    (onMouseUp st ex ey now).moveTarget = st.moveTarget ∧
    (onMouseUp st ex ey now).teleportLog = st.teleportLog ∧
    (onTouchEnd st now).rigPos = st.rigPos ∧
    (onTouchEnd st now).moveTarget = st.moveTarget ∧
    (onTouchEnd st now).teleportLog = st.teleportLog ∧
    onSelect st = st := by
  have hsel : onSelect st = st := by
    unfold onSelect
    rw [if_neg]
    rw [h]
    exact Bool.false_ne_true
  have hmu : onMouseUp st ex ey now =
      if st.xrPresenting then st
      else { st with isDragging := false, dragging := false } := by
    unfold onMouseUp
    dsimp only
    split
    · rfl
    · rw [if_neg (by rintro ⟨-, -, hmk⟩; simp [h] at hmk)]
  have hte : onTouchEnd st now =
      if st.xrPresenting then st
      else if st.pinchActive then
        { st with pinchActive := false, pinchSnapChosen := false,
                  dragging := false }
      else { st with dragging := false } := by
    unfold onTouchEnd
    dsimp only
    split
    · rfl
    · split
      · rw [if_neg (by rintro ⟨-, -, hmk⟩; simp [h] at hmk)]
      · rw [if_neg (by rintro ⟨-, -, hmk⟩; simp [h] at hmk)]
  rw [hmu, hte]
  constructor
  · split <;> rfl
  constructor
  · split <;> rfl
  constructor
  · split <;> rfl
  constructor
  · split
    · rfl
    · split <;> rfl
  constructor
  · split
    · rfl
    · split <;> rfl
  constructor
  · split
    · rfl
    · split <;> rfl
  · exact hsel

/-- Claim C4 witness: at the freshly initialised state (marker invisible),
a mouse release at (1, 2) at time 3 leaves the rig position unchanged. -/
theorem C4_witness :
    baseState.markerVisible = false ∧
    (onMouseUp baseState 1 2 3).rigPos = baseState.rigPos ∧
    (onTouchEnd baseState 3).moveTarget = baseState.moveTarget :=
  ⟨rfl, (C4_invalid_aim_noop baseState 1 2 3 rfl).1,
    (C4_invalid_aim_noop baseState 1 2 3 rfl).2.2.2.2.1⟩

/-- Claim C3 counterexample: in the older startMove variant, a smooth
request while an immersive session is presenting does not snap: from the
origin with destination (3, 0, 4) the rig X stays 0 rather than 3, and a
pending glide goal is created. -/
theorem C3_counterexample :
    (P0.startMove o0 stP0 ⟨3, 0, 4⟩ true).rigPos.x ≠ 3 ∧
    (P0.startMove o0 stP0 ⟨3, 0, 4⟩ true).path ≠ [] := by
  constructor
  · show (0 : ℝ) ≠ 3
    norm_num
  · show [(⟨3, 0, 4⟩ : Vec3)] ≠ []
    exact List.cons_ne_nil _ _

/-- Claim C3 amended: in the current viewer, moveTo while presenting in XR
snaps the rig to the XZ of the destination and leaves no pending goal for
smooth = true exactly as for smooth = false; but in the older startMove
variant a smooth request while presenting leaves the rig position unchanged
within the call and plans a nonempty glide path (only smooth = false is
instant there). -/
theorem C3_xr_snap (st : ViewerState) (p : Vec3)
    (hxr : st.xrPresenting = true) :
    (moveTo st p true).rigPos = ⟨p.x, 0, p.z⟩ ∧
    (moveTo st p true).moveTarget = none ∧
    (moveTo st p true).rigPos = (moveTo st p false).rigPos ∧
    (moveTo st p true).moveTarget = (moveTo st p false).moveTarget ∧
    (∀ (o : P0.NavOracle) (q : P0.P0State), q.xrPresenting = true →
      (P0.startMove o q p true).rigPos = q.rigPos ∧
      (P0.startMove o q p true).path ≠ []) := by
  have h1 : moveTo st p true =
      { st with teleportLog := (p, true) :: st.teleportLog,
                rigPos := ⟨p.x, 0, p.z⟩, moveTarget := none } := by
    unfold moveTo
    dsimp only
    rw [if_pos]
    simp [hxr]
  have h2 : moveTo st p false =
      { st with teleportLog := (p, false) :: st.teleportLog,
                rigPos := ⟨p.x, 0, p.z⟩, moveTarget := none } := by
    unfold moveTo
    dsimp only
    rw [if_pos]
    simp
  refine ⟨by rw [h1], by rw [h1], by rw [h1, h2], by rw [h1, h2], ?_⟩
  intro o q hq
  have hsm : P0.startMove o q p true = P0.planPath o q p := by
    unfold P0.startMove
    rw [if_neg]
    simp
  rw [hsm]
  unfold P0.planPath
  split
  · rcases hquery : o.query q.rigPos p with _ | navPath
    · simp [hquery]
    · rcases navPath with _ | ⟨w, ws⟩
      · simp [hquery]
      · simp [hquery]
  · simp

/-- Claim C3 witness: at the concrete XR-presenting state, a smooth moveTo
request to (7, 1, 9) snaps the rig to (7, 0, 9) within the call. -/
theorem C3_witness :
    stXR.xrPresenting = true ∧
    (moveTo stXR ⟨7, 1, 9⟩ true).rigPos = ⟨7, 0, 9⟩ :=
  ⟨rfl, (C3_xr_snap stXR ⟨7, 1, 9⟩ rfl).1⟩

/-- Claim C1: on a frame tick with a pending goal whose remaining XZ
distance exceeds the tolerance max(0.05, MOVE_SPEED * dt), where
dt = min(0.05, delta) is the clamped frame delta, the rig advances by
exactly MOVE_SPEED * dt along the normalized XZ remaining vector (the
displacement has exactly that length), its Y component is unchanged, and
the goal remains pending. -/
theorem C1_glide_step (st : ViewerState) (t : Vec3) (delta : ℝ)
    (hmt : st.moveTarget = some t) (hd : 0 ≤ delta)
    (hdist : max 0.05 (MOVE_SPEED * min 0.05 delta) <
      Real.sqrt ((t.x - st.rigPos.x) ^ 2 + (t.z - st.rigPos.z) ^ 2)) :
    (tickMove delta st).rigPos.x = st.rigPos.x +
      (t.x - st.rigPos.x) /
        Real.sqrt ((t.x - st.rigPos.x) ^ 2 + (t.z - st.rigPos.z) ^ 2) *
        (MOVE_SPEED * min 0.05 delta) ∧
    (tickMove delta st).rigPos.y = st.rigPos.y ∧
    (tickMove delta st).rigPos.z = st.rigPos.z +
      (t.z - st.rigPos.z) /
        Real.sqrt ((t.x - st.rigPos.x) ^ 2 + (t.z - st.rigPos.z) ^ 2) *
        (MOVE_SPEED * min 0.05 delta) ∧
    (tickMove delta st).moveTarget = some t ∧
    Real.sqrt (((tickMove delta st).rigPos.x - st.rigPos.x) ^ 2 +
        ((tickMove delta st).rigPos.z - st.rigPos.z) ^ 2) =
      MOVE_SPEED * min 0.05 delta := by
  have htick : tickMove delta st = { st with rigPos :=
      ⟨st.rigPos.x + (t.x - st.rigPos.x) /
          Real.sqrt ((t.x - st.rigPos.x) ^ 2 + (t.z - st.rigPos.z) ^ 2) *
          (MOVE_SPEED * min 0.05 delta),
        st.rigPos.y,
        st.rigPos.z + (t.z - st.rigPos.z) /
          Real.sqrt ((t.x - st.rigPos.x) ^ 2 + (t.z - st.rigPos.z) ^ 2) *
          (MOVE_SPEED * min 0.05 delta)⟩ } := by
    unfold tickMove
    rw [hmt]
    dsimp only
    rw [if_neg (not_le.mpr hdist)]
  have hd0 : (0 : ℝ) <
      Real.sqrt ((t.x - st.rigPos.x) ^ 2 + (t.z - st.rigPos.z) ^ 2) :=
    lt_trans (lt_of_lt_of_le (by norm_num) (le_max_left _ _)) hdist
  have hs0 : (0 : ℝ) ≤ MOVE_SPEED * min 0.05 delta :=
    mul_nonneg (by norm_num [MOVE_SPEED]) (le_min (by norm_num) hd)
  refine ⟨by rw [htick], by rw [htick], by rw [htick], by rw [htick, hmt], ?_⟩
  rw [htick]
  dsimp only
  set vx := t.x - st.rigPos.x with hvx
  set vz := t.z - st.rigPos.z with hvz
  set d := Real.sqrt (vx ^ 2 + vz ^ 2) with hdd
  set s := MOVE_SPEED * min 0.05 delta with hs
  have h1 : (st.rigPos.x + vx / d * s - st.rigPos.x) ^ 2 +
      (st.rigPos.z + vz / d * s - st.rigPos.z) ^ 2 =
      (s / d) ^ 2 * (vx ^ 2 + vz ^ 2) := by ring
  rw [h1, Real.sqrt_mul (sq_nonneg _),
    Real.sqrt_sq (div_nonneg hs0 (le_of_lt hd0)), ← hdd]
  exact div_mul_cancel₀ s (ne_of_gt hd0)

/-- Claim C1 witness: rig at the origin, pending goal (3, 0, 4) at distance
5, raw delta 0.1 clamped to dt = 0.05; the hypotheses hold and the goal is
still pending after the tick. -/
theorem C1_witness :
    stM.moveTarget = some ⟨3, 0, 4⟩ ∧ (0 : ℝ) ≤ 0.1 ∧
    max 0.05 (MOVE_SPEED * min 0.05 0.1) <
      Real.sqrt (((⟨3, 0, 4⟩ : Vec3).x - stM.rigPos.x) ^ 2 +
        ((⟨3, 0, 4⟩ : Vec3).z - stM.rigPos.z) ^ 2) ∧
    (tickMove 0.1 stM).moveTarget = some ⟨3, 0, 4⟩ := by
  have harg : ((⟨3, 0, 4⟩ : Vec3).x - stM.rigPos.x) ^ 2 +
      ((⟨3, 0, 4⟩ : Vec3).z - stM.rigPos.z) ^ 2 = 5 ^ 2 := by
    show ((3 : ℝ) - 0) ^ 2 + ((4 : ℝ) - 0) ^ 2 = 5 ^ 2
    norm_num
  have hdist : max 0.05 (MOVE_SPEED * min 0.05 0.1) <
      Real.sqrt (((⟨3, 0, 4⟩ : Vec3).x - stM.rigPos.x) ^ 2 +
        ((⟨3, 0, 4⟩ : Vec3).z - stM.rigPos.z) ^ 2) := by
    rw [harg, Real.sqrt_sq (by norm_num : (0 : ℝ) ≤ 5)]
    rw [show min (0.05 : ℝ) 0.1 = 0.05 from min_eq_left (by norm_num)]
    norm_num [MOVE_SPEED, max_def]
  exact ⟨rfl, by norm_num, hdist,
    (C1_glide_step stM ⟨3, 0, 4⟩ 0.1 rfl (by norm_num) hdist).2.2.2.1⟩

/-- Claim C2: on a frame tick with a pending goal whose remaining XZ
distance is at most the tolerance max(0.05, MOVE_SPEED * dt), the rig is
set exactly to the goal X and Z with Y = 0 and the goal is cleared, so any
immediately following tick moves nothing (idempotence). -/
theorem C2_snap (st : ViewerState) (t : Vec3) (delta : ℝ)
    (hmt : st.moveTarget = some t)
    (hdist : Real.sqrt ((t.x - st.rigPos.x) ^ 2 + (t.z - st.rigPos.z) ^ 2) ≤
      max 0.05 (MOVE_SPEED * min 0.05 delta)) :
    (tickMove delta st).rigPos = ⟨t.x, 0, t.z⟩ ∧
    (tickMove delta st).moveTarget = none ∧
    (∀ d2, (tickMove d2 (tickMove delta st)).rigPos =
        (tickMove delta st).rigPos ∧
      (tickMove d2 (tickMove delta st)).moveTarget = none) := by
  have h1 : tickMove delta st =
      { st with rigPos := ⟨t.x, 0, t.z⟩, moveTarget := none } := by
    unfold tickMove
    rw [hmt]
    dsimp only
    rw [if_pos hdist]
  refine ⟨by rw [h1], by rw [h1], ?_⟩
  intro d2
  rw [h1]
  exact ⟨rfl, rfl⟩

/-- Claim C2 witness: rig at the origin, goal (0.03, 0, 0.04) at distance
0.05, raw delta 0.1; the tolerance hypothesis holds, after the tick the rig
is exactly at the goal XZ and the goal is cleared. -/
theorem C2_witness :
    stN.moveTarget = some ⟨0.03, 0, 0.04⟩ ∧
    Real.sqrt (((⟨0.03, 0, 0.04⟩ : Vec3).x - stN.rigPos.x) ^ 2 +
        ((⟨0.03, 0, 0.04⟩ : Vec3).z - stN.rigPos.z) ^ 2) ≤
      max 0.05 (MOVE_SPEED * min 0.05 0.1) ∧
    (tickMove 0.1 stN).rigPos = ⟨0.03, 0, 0.04⟩ ∧
    (tickMove 0.1 stN).moveTarget = none := by
  have harg : ((⟨0.03, 0, 0.04⟩ : Vec3).x - stN.rigPos.x) ^ 2 +
      ((⟨0.03, 0, 0.04⟩ : Vec3).z - stN.rigPos.z) ^ 2 = 0.05 ^ 2 := by
    show ((0.03 : ℝ) - 0) ^ 2 + ((0.04 : ℝ) - 0) ^ 2 = 0.05 ^ 2
    norm_num
  have hdist : Real.sqrt (((⟨0.03, 0, 0.04⟩ : Vec3).x - stN.rigPos.x) ^ 2 +
      ((⟨0.03, 0, 0.04⟩ : Vec3).z - stN.rigPos.z) ^ 2) ≤
      max 0.05 (MOVE_SPEED * min 0.05 0.1) := by
    rw [harg, Real.sqrt_sq (by norm_num : (0 : ℝ) ≤ 0.05)]
    exact le_max_left _ _
  exact ⟨rfl, hdist,
    (C2_snap stN ⟨0.03, 0, 0.04⟩ 0.1 rfl hdist).1,
    (C2_snap stN ⟨0.03, 0, 0.04⟩ 0.1 rfl hdist).2.1⟩

/-- Claim C5: after every mouse-drag or touch-drag look event the pitch
angle is within the plus or minus 85 degree limit, and with the pitch pinned
at the upper bound further upward input keeps it there; yaw is updated with
no clamp at all, and across any whole sequence of touch look events the
quantity yaw plus sensitivity times last-touch-X is invariant, so yaw
accumulates the full telescoped input without bound. -/
theorem C5_pitch_clamped_yaw_free (st : ViewerState) (ex ey tx ty : ℝ)
    (hxr : st.xrPresenting = false) (hdrag : st.isDragging = true) :
    |(onMouseMove st ex ey).pitchRotX| ≤ LOOK_PITCH_LIMIT ∧
    (onMouseMove st ex ey).yawRotY =
      st.yawRotY - (ex - st.lastX) * LOOK_SENS_MOUSE ∧
    |(onTouchMove1 st tx ty).pitchRotX| ≤ LOOK_PITCH_LIMIT ∧
    (onTouchMove1 st tx ty).yawRotY =
      st.yawRotY - (tx - st.lastTouchX) * LOOK_SENS_TOUCH ∧
    (st.pitchRotX = LOOK_PITCH_LIMIT → ey ≤ st.lastY →
      (onMouseMove st ex ey).pitchRotX = LOOK_PITCH_LIMIT) ∧
    (∀ ps : List (ℝ × ℝ),
      (ps.foldl (fun s q => onTouchMove1 s q.1 q.2) st).yawRotY +
        LOOK_SENS_TOUCH *
          (ps.foldl (fun s q => onTouchMove1 s q.1 q.2) st).lastTouchX =
      st.yawRotY + LOOK_SENS_TOUCH * st.lastTouchX) := by
  have hmm : onMouseMove st ex ey =
      { st with lastX := ex, lastY := ey,
                yawRotY := st.yawRotY - (ex - st.lastX) * LOOK_SENS_MOUSE,
                pitchRotX := clampU (st.pitchRotX - (ey - st.lastY) * LOOK_SENS_MOUSE)
                  (-LOOK_PITCH_LIMIT) LOOK_PITCH_LIMIT,
                dragging := true } := by
    unfold onMouseMove
    simp [hxr, hdrag]
  have htm : onTouchMove1 st tx ty =
      { st with lastTouchX := tx, lastTouchY := ty,
                yawRotY := st.yawRotY - (tx - st.lastTouchX) * LOOK_SENS_TOUCH,
                pitchRotX := clampU (st.pitchRotX - (ty - st.lastTouchY) * LOOK_SENS_TOUCH)
                  (-LOOK_PITCH_LIMIT) LOOK_PITCH_LIMIT,
                dragging := true } := by
    unfold onTouchMove1
    simp [hxr]
  refine ⟨?_, by rw [hmm], ?_, by rw [htm], ?_, touch_yaw_invariant st hxr⟩
  · rw [hmm]
    exact clampU_abs_le _
  · rw [htm]
    exact clampU_abs_le _
  · intro hpin hup
    rw [hmm]
    dsimp only
    rw [hpin]
    apply clampU_pin_hi
    have : 0 ≤ -((ey - st.lastY) * LOOK_SENS_MOUSE) := by
      have h1 : ey - st.lastY ≤ 0 := sub_nonpos.mpr hup
      have h2 : (0 : ℝ) ≤ LOOK_SENS_MOUSE := by norm_num [LOOK_SENS_MOUSE]
      nlinarith
    linarith

/-- Claim C5 witness: at the concrete dragging state with pitch 0 a mouse
look event keeps the pitch within the limit. -/
theorem C5_witness :
    stDrag.xrPresenting = false ∧ stDrag.isDragging = true ∧
    |(onMouseMove stDrag 100 0).pitchRotX| ≤ LOOK_PITCH_LIMIT :=
  ⟨rfl, rfl, (C5_pitch_clamped_yaw_free stDrag 100 0 0 0 rfl rfl).1⟩

/-- Claim C6 counterexample: a touch press-release cycle with a valid aim,
only 1 pixel of movement and 100 ms duration issues no teleport request at
all (the log stays empty): any touch movement marks the gesture as a drag
and cancels the click classification, so the 6 pixel threshold of the claim
does not apply to the touch path. -/
theorem C6_counterexample :
    (onTouchMove1 (onTouchStart1 stAim 0 0 0) 1 0).markerVisible = true ∧
    (onTouchEnd (onTouchMove1 (onTouchStart1 stAim 0 0 0) 1 0) 100).teleportLog
      = [] := by
  have h1 : onTouchStart1 stAim 0 0 0 =
      { stAim with lastTouchX := 0, lastTouchY := 0, downX := 0, downY := 0,
                   downTime := 0, dragging := false, pinchActive := false,
                   pinchSnapChosen := false } := by
    unfold onTouchStart1
    simp [stAim, baseState, initState]
  have h2 : (onTouchMove1 (onTouchStart1 stAim 0 0 0) 1 0).dragging = true := by
    rw [h1]
    unfold onTouchMove1
    simp [stAim, baseState, initState]
  have hxr2 : (onTouchMove1 (onTouchStart1 stAim 0 0 0) 1 0).xrPresenting
      = false := by
    rw [h1]
    unfold onTouchMove1
    simp [stAim, baseState, initState]
  constructor
  · rw [h1]
    unfold onTouchMove1
    simp [stAim, baseState, initState]
  · rw [onTouchEnd_drag_log _ 100 hxr2 h2, h1]
    unfold onTouchMove1
    simp [stAim, baseState, initState]

/-- Claim C6 amended: while the aim is valid and outside XR, a mouse
release whose net displacement from the press point is at most 6 pixels and
whose duration is at most 300 ms issues exactly one teleport request with
smooth = true, and a mouse release with net displacement above 6 pixels
issues none, so sub-threshold mouse movement never cancels the mouse click;
on the touch path, any touch movement at all marks the gesture as a drag
and a drag cancels the click, while a touch release with no intervening
drag within 300 ms issues exactly one smooth teleport request. -/
theorem C6_click_classification (st : ViewerState) (ex ey now : ℝ)
    (hxr : st.xrPresenting = false) (hm : st.markerVisible = true) :
    ((ex - st.downX) * (ex - st.downX) + (ey - st.downY) * (ey - st.downY) ≤
          CLICK_PX * CLICK_PX → now - st.downTime ≤ CLICK_MS →
      (onMouseUp st ex ey now).teleportLog =
        (st.aimPoint, true) :: st.teleportLog) ∧
    (CLICK_PX * CLICK_PX <
          (ex - st.downX) * (ex - st.downX) + (ey - st.downY) * (ey - st.downY) →
      (onMouseUp st ex ey now).teleportLog = st.teleportLog) ∧
    (st.dragging = false → now - st.downTime ≤ CLICK_MS →
      (onTouchEnd st now).teleportLog =
        (st.aimPoint, true) :: st.teleportLog) ∧
    (st.dragging = true →
      (onTouchEnd st now).teleportLog = st.teleportLog) ∧
    (∀ tx ty, (onTouchMove1 st tx ty).dragging = true) := by
  refine ⟨?_, ?_, ?_, ?_, ?_⟩
  · intro h6 hdt
    unfold onMouseUp
    rw [if_neg (by simp [hxr])]
    dsimp only
    rw [if_pos ⟨not_lt.mpr h6, hdt, hm⟩]
    exact moveTo_log _ _ _
  · intro h7
    unfold onMouseUp
    rw [if_neg (by simp [hxr])]
    dsimp only
    rw [if_neg (by rintro ⟨hnd, -, -⟩; exact hnd h7)]
  · intro hdr0 hdt
    unfold onTouchEnd
    rw [if_neg (by simp [hxr])]
    dsimp only
    split
    · rw [if_pos ⟨by simp [hdr0], hdt, hm⟩]
      exact moveTo_log _ _ _
    · rw [if_pos ⟨by simp [hdr0], hdt, hm⟩]
      exact moveTo_log _ _ _
  · intro hdr
    exact onTouchEnd_drag_log st now hxr hdr
  · intro tx ty
    unfold onTouchMove1
    simp [hxr]

/-- Claim C6 witness: at the concrete valid-aim state, a 1-pixel mouse
press-release cycle of 100 ms issues exactly one smooth teleport request to
the aim point, and so does a movement-free touch cycle. -/
theorem C6_witness :
    stAim.xrPresenting = false ∧ stAim.markerVisible = true ∧
    (onMouseUp stAim 1 1 100).teleportLog =
      (stAim.aimPoint, true) :: stAim.teleportLog ∧
    (onTouchEnd stAim 100).teleportLog =
      (stAim.aimPoint, true) :: stAim.teleportLog := by
  have h := C6_click_classification stAim 1 1 100 rfl rfl
  refine ⟨rfl, rfl, h.1 ?_ ?_, h.2.2.1 rfl ?_⟩
  · norm_num [stAim, baseState, initState, CLICK_PX]
  · norm_num [stAim, baseState, initState, CLICK_MS]
  · norm_num [stAim, baseState, initState, CLICK_MS]

end ThreeDV
